import Mathlib

set_option maxRecDepth 100000

/-!
Shallow embedding of `src/art_proc.c` (heimdall_libnpnt): permission-artifact
ingestion (`npnt_set_permart`), XML-signature style verification
(`npnt_verify_permart`) with its streaming canonicalizer, geofence extraction
(`npnt_alloc_and_get_fence_points`), max-altitude lookup
(`npnt_get_max_altitude`) and flight-parameter extraction
(`npnt_populate_flight_params` / `npnt_ist_date_time_to_unix_time`).

Byte buffers are modeled as `List Char` (each `Char` standing for one byte of
the NUL-terminated C string).  External collaborators that are not part of
this repository's `src/` (the mxml tree parser, base64 decode, the SHA-1
primitive and the public-key signature check) are modeled abstractly or,
where the spec pins them down, from the spec.  Machine integers are modeled
as `Nat`/`Int` with explicit `% 2 ^ w` where a width conversion happens in
the C code (the `uint16_t` vertex counter returned through `int8_t`).
`Option` results model fallible C functions; a `none` at the top level of an
operation models a path on which the C code commits undefined behaviour
(a NULL dereference), which cannot return normally.
-/

/-! ## XML tree model (mxml collaborator)

`mxmlLoadString` with `MXML_OPAQUE_CALLBACK` produces a tree of element nodes
and opaque text nodes.  The artifact code only uses: find first element by
name (depth-first whole-tree search), element name, attribute lookup, first
child / next sibling traversal, and opaque text of a node.  Modelled from the
spec (section 6, "XML tree parser"), since mxml is outside `src/`. -/

inductive Xml where
  | elem (name : String) (attrs : List (String × String)) (children : List Xml)
  | txt (s : String)

mutual

/-- Depth-first search for the first element with the given name
(`mxmlFindElement` with `MXML_DESCEND`, whole-tree search). -/
def findElem (nm : String) : Xml → Option Xml
  | .txt _ => none
  | .elem n a cs => if n = nm then some (.elem n a cs) else findElemL nm cs

/-- Depth-first search over a list of sibling nodes, in document order. -/
def findElemL (nm : String) : List Xml → Option Xml
  | [] => none
  | x :: xs =>
    match findElem nm x with
    | some r => some r
    | none => findElemL nm xs

end

/-- Model of `mxmlElementGetAttr`: attribute lookup on an element node; NULL (`none`)
on a text node or a missing attribute. -/
def getAttr (x : Xml) (a : String) : Option String :=
  match x with
  | .elem _ attrs _ => (attrs.find? (fun kv => kv.1 = a)).map (fun kv => kv.2)
  | .txt _ => none

/-- Model of `mxmlGetOpaque` applied to an `Option`al node: NULL gives NULL; an opaque
node gives its text; an element node gives the text of its first child when
that child is opaque (this is how mxml exposes element content in
`MXML_OPAQUE_CALLBACK` mode). -/
def getOpaqueText : Option Xml → Option String
  | some (.txt s) => some s
  | some (.elem _ _ (Xml.txt s :: _)) => some s
  | _ => none

/-! ## strstr -/

/-- Index of the first occurrence of `pat` in `hay` (`strstr`), `none` when
`strstr` returns NULL. -/
def strstr_index : List Char → List Char → Option Nat
  | [], pat => if pat.isPrefixOf ([] : List Char) then some 0 else none
  | c :: rest, pat =>
    if pat.isPrefixOf (c :: rest) then some 0
    else (strstr_index rest pat).map (fun i => i + 1)

/-! ## The streaming canonicalizer (art_proc.c lines 125-155 and 192-222)

Both digest passes run the same scan: a cursor walks the byte range; on `<`
the element's bare name is captured into `last_empty_element` until a space
(name kept, attributes follow) or a `>` (name cleared); whenever the current
byte is `/`, the captured name is nonempty and the next byte is `>`, the
bytes `></` followed by the captured name are fed to the digest instead of
the current byte, and the name is cleared; every other byte is fed through
unchanged.

`scanName` returns the captured name together with the value of
`curr_length` at loop exit (1 plus the number of captured characters).  When
the inner loop runs off the end of the range the C code leaves
`last_empty_element` without a fresh NUL terminator; that state is
unobservable because `curr_ptr + curr_length` has then reached the end of
the range, so the outer loop stops before the buffer is read again — we
return the accumulated characters.

The C scan reads `signed_info[curr_ptr + 1]` for the lookahead without a
range check; at both call sites the byte just past the range is the `<` of
the marker that delimited the range, so a `/` as the last byte of the range
never triggers the rewrite.  The model's `rest.head? = some '>'` lookahead
(which fails at the end of the range) therefore agrees with the C code.

The recursion is driven by explicit fuel (initialised to the range length,
and consuming at least one input byte per unit of fuel) so that every
application reduces inside the kernel. -/

def scanName : List Char → List Char → (List Char × Nat)
  | [], acc => (acc, acc.length + 1)
  | c :: rest, acc =>
    if c = ' ' then (acc, acc.length + 1)
    else if c = '>' then ([], acc.length + 1)
    else scanName rest (acc ++ [c])

def canonFuel : Nat → List Char → List Char → List Char
  | 0, _, _ => []
  | _ + 1, [], _ => []
  | fuel + 1, c :: rest, name =>
    if c = '<' then
      (c :: rest).take (scanName rest []).2 ++
        canonFuel fuel ((c :: rest).drop (scanName rest []).2) (scanName rest []).1
    else if name ≠ [] ∧ c = '/' ∧ rest.head? = some '>' then
      '>' :: '<' :: '/' :: (name ++ canonFuel fuel rest [])
    else
      c :: canonFuel fuel rest name

/-- The byte sequence fed to the SHA-1 accumulator by one canonicalization
pass over the range `s`, starting with captured-name state `name`
(`last_empty_element`; the C buffer is uninitialised before the first pass
and carries over between passes, but both passes start at a `<`, whose name
capture overwrites it before it can be read). -/
def canonicalize (s : List Char) (name : List Char) : List Char :=
  canonFuel s.length s name

/-- Tests whether the byte range contains a `/` immediately followed by `>`. -/
def hasSlashGt : List Char → Bool
  | a :: b :: rest => (a = '/' && b = '>') || hasSlashGt (b :: rest)
  | _ => false

/-! ## Status codes

Modelled from the spec: `npnt.h` is not under `src/`; section 6 of the spec
says "Status codes are small negative integers, one per ErrorKind in
section 7; zero means success".  The concrete values below are arbitrary
distinct negative integers; no claim depends on the numeric values, only on
their being distinct and negative. -/

def NPNT_UNALLOC_HANDLE : Int := -1
def NPNT_ALREADY_SET : Int := -2
def NPNT_PARSE_FAILED : Int := -3
def NPNT_INV_ART : Int := -4
def NPNT_INV_SIGN : Int := -5
def NPNT_INV_AUTH : Int := -6
def NPNT_INV_DGST : Int := -7
def NPNT_BAD_FENCE : Int := -8
def NPNT_INV_BAD_ALT : Int := -9
def NPNT_INV_FPARAMS : Int := -10

/-! ## Timestamp conversion (art_proc.c lines 336-375) -/

/-- The fields of `struct tm` that `npnt_ist_date_time_to_unix_time` writes
(the rest of the struct is `memset` to zero and never read by this code). -/
structure Tm where
  tm_year : Int
  tm_mon : Int
  tm_mday : Int
  tm_hour : Int
  tm_min : Int
  tm_sec : Int

def tmZero : Tm := ⟨0, 0, 0, 0, 0, 0⟩

def isDigitCh (c : Char) : Bool := 48 ≤ c.toNat && c.toNat ≤ 57

def atoiDigits : List Char → Nat → Nat
  | c :: rest, acc =>
    if isDigitCh c then atoiDigits rest (acc * 10 + (c.toNat - 48)) else acc
  | [], acc => acc

/-- C `atoi`: skip leading whitespace, optional sign, then leading decimal
digits; 0 when no digits.  (Overflow is impossible here: the callers pass at
most 4 digits.) -/
def atoi (s : List Char) : Int :=
  match s.dropWhile (fun c => c = ' ' || c = '\t' || c = '\n' || c = '\r') with
  | '-' :: rest => -(atoiDigits rest 0 : Int)
  | '+' :: rest => (atoiDigits rest 0 : Int)
  | s1 => (atoiDigits s1 0 : Int)

/-- Model of `npnt_ist_date_time_to_unix_time`: a 19-character `YYYY-MM-DDTHH:MM:SS`
string is cut at fixed offsets 0/5/8/11/14/17 and each field is `atoi`ed;
year minus 1900, hour minus 5 and minute minus 30 (the fixed IST-to-UTC
offset, raw subtraction with no borrow), month with no 0-based adjustment.
`none` models the `-1` return for a length other than 19, on which the
output struct is not written.  (The C function dereferences `dt_string` with
`strlen` before any NULL check; callers passing NULL are modeled at the call
site, not here.) -/
def npnt_ist_date_time_to_unix_time (s : List Char) : Option Tm :=
  if s.length ≠ 19 then none
  else some
    { tm_year := atoi (s.take 4) - 1900
      tm_mon := atoi ((s.drop 5).take 2)
      tm_mday := atoi ((s.drop 8).take 2)
      tm_hour := atoi ((s.drop 11).take 2) - 5
      tm_min := atoi ((s.drop 14).take 2) - 30
      tm_sec := atoi ((s.drop 17).take 2) }

/-! ## Flight parameters (art_proc.c lines 377-426) -/

structure FlightParams where
  uinNo : Option String
  adcNumber : Option String
  ficNumber : Option String
  flightStartTime : Tm
  flightEndTime : Tm

def fp0 : FlightParams := ⟨none, none, none, tmZero, tmZero⟩

/-- Model of `npnt_get_attr`: attribute lookup plus a defensive `malloc`/`strcpy` copy
(the copy is value-identical; `malloc` failure is not modeled). -/
def npnt_get_attr (n : Xml) (a : String) : Option String := getAttr n a

/-- Model of `npnt_populate_flight_params`.  The handle's `params` fields are assigned
in source order (`uinNo`, `adcNumber`, `ficNumber`, `flightEndTime`,
`flightStartTime` — end before start), each assignment happening *before*
the corresponding NULL check, so a failing step leaves the earlier fields
populated.  The two timestamp attributes are passed to
`npnt_ist_date_time_to_unix_time` without a NULL check; when the attribute
is absent, `strlen(NULL)` inside that function is undefined behaviour,
modeled as `none`. -/
def npnt_populate_flight_params (t : Xml) (p : FlightParams) :
    Option (Int × FlightParams) :=
  match findElem "UADetails" t with
  | none => some (NPNT_INV_FPARAMS, p)
  | some ua =>
    match findElem "FlightParameters" t with
    | none => some (NPNT_INV_FPARAMS, p)
    | some fp =>
      let p1 : FlightParams := { p with uinNo := npnt_get_attr ua "uinNo" }
      if p1.uinNo.isNone then some (NPNT_INV_FPARAMS, p1)
      else
        let p2 : FlightParams := { p1 with adcNumber := npnt_get_attr fp "adcNumber" }
        if p2.adcNumber.isNone then some (NPNT_INV_FPARAMS, p2)
        else
          let p3 : FlightParams := { p2 with ficNumber := npnt_get_attr fp "ficNumber" }
          if p3.ficNumber.isNone then some (NPNT_INV_FPARAMS, p3)
          else
            match getAttr fp "flightEndTime" with
            | none => none
            | some es =>
              match npnt_ist_date_time_to_unix_time es.data with
              | none => some (NPNT_INV_FPARAMS, p3)
              | some etm =>
                let p4 : FlightParams := { p3 with flightEndTime := etm }
                match getAttr fp "flightStartTime" with
                | none => none
                | some ss =>
                  match npnt_ist_date_time_to_unix_time ss.data with
                  | none => some (NPNT_INV_FPARAMS, p4)
                  | some stm => some (0, { p4 with flightStartTime := stm })

/-! ## Geofence extraction (art_proc.c lines 251-313) -/

def isCoordinateElem : Xml → Bool
  | .elem n _ _ => n = "Coordinate"
  | .txt _ => false

/-- The element children named `Coordinate` of the first `Coordinates`
element, in document order; the sibling walk skips text nodes
(`mxmlGetElement` NULL) and elements with other names. -/
def coordChildren (t : Xml) : List Xml :=
  match findElem "Coordinates" t with
  | some (.elem _ _ cs) => cs.filter isCoordinateElem
  | _ => []

/-- The value of the `uint16_t nverts` counter after either counting pass. -/
def coordCount (t : Xml) : Nat := (coordChildren t).length

def hasLatLon (c : Xml) : Bool :=
  (getAttr c "latitude").isSome && (getAttr c "longitude").isSome

def coordsWellAttributed (t : Xml) : Bool := (coordChildren t).all hasLatLon

/-- Conversion of the `uint16_t` vertex counter through the function's
`int8_t` return type: reduce mod 2^16 (the counter's width), then mod 2^8,
reinterpreted as a signed byte (two's-complement wrap, the behaviour of the
targeted compilers). -/
def int8_of_uint16 (n : Nat) : Int :=
  if n % 65536 % 256 < 128 then ((n % 65536 % 256 : Nat) : Int)
  else ((n % 65536 % 256 : Nat) : Int) - 256

/-- Model of `npnt_alloc_and_get_fence_points`: count the `Coordinate` children of
`Coordinates`, then re-walk them reading `latitude`/`longitude`; any missing
attribute returns `-1` (`goto fail`), otherwise the count is returned
through the `int8_t` return type.  The two `malloc`s are assumed to succeed
(allocation failure would return `-1`, also non-positive); the allocated
vertex arrays are assigned to by-value parameter copies and never reach the
caller, so no handle state is modeled here. -/
def npnt_alloc_and_get_fence_points (t : Xml) : Int :=
  if coordsWellAttributed t then int8_of_uint16 (coordCount t) else -1

/-- Model of `npnt_get_max_altitude`: `some s` models return 0 with `*altitude =
atof(s)` (the float conversion itself is not modeled; no claim reads the
value), `none` models return `-1` with `*altitude` untouched. -/
def npnt_get_max_altitude (t : Xml) : Option String :=
  match findElem "FlightParameters" t with
  | none => none
  | some fp => getAttr fp "maxAltitude"

/-! ## base64 encoding

Modelled from the spec: the base64 primitives live outside `src/`; spec
section 6 says `encode(bytes, length) -> (owned bytes, length)` is total.
This is standard RFC 4648 base64 over the byte values of the characters; the
returned length is the number of encoded characters (a trailing NUL, if the
real implementation counts one, only shifts which index the comparison loop
in `npnt_verify_permart` stops short of — the loop ignores the tail either
way). -/

def b64Alphabet : List Char :=
  "ABCDEFGHIJKLMNOPQRSTUVWXYZabcdefghijklmnopqrstuvwxyz0123456789+/".data

def b64Char (n : Nat) : Char := b64Alphabet.getD n 'A'

def base64_encode : List Char → List Char
  | [] => []
  | [a] =>
    [b64Char (a.toNat / 4), b64Char (a.toNat % 4 * 16), '=', '=']
  | [a, b] =>
    [b64Char (a.toNat / 4), b64Char (a.toNat % 4 * 16 + b.toNat / 16),
     b64Char (b.toNat % 16 * 4), '=']
  | a :: b :: c :: rest =>
    b64Char (a.toNat / 4) :: b64Char (a.toNat % 4 * 16 + b.toNat / 16) ::
      b64Char (b.toNat % 16 * 4 + c.toNat / 64) :: b64Char (c.toNat % 64) ::
        base64_encode rest

def nulChar : Char := Char.ofNat 0

/-- The digest comparison loop (art_proc.c lines 234-239): indices `0` to
`base64_digest_value_len - 2` of the computed encoding are compared against
the `DigestValue` text.  Reads past the received text's terminator are
modeled as NUL (`List.getD`); no length comparison is performed by the C
code. -/
def digest_value_check (computed rcvd : List Char) : Bool :=
  (List.range (computed.length - 1)).all
    (fun i => computed.getD i nulChar == rcvd.getD i nulChar)

/-! ## External collaborators bundle -/

/-- The primitives `npnt_verify_permart` and `npnt_set_permart` call that are
outside `src/`: base64 decode (NULL on malformed input), the mxml string
parser, the SHA-1 streaming digest (modeled as a function from the whole fed
byte sequence to the 20-byte value written into `char digest_value[20]`),
and `npnt_check_authenticity` (digest, decoded signature or NULL, result
positive on success). -/
structure Externals where
  base64_decode : List Char → Option (List Char)
  parse : List Char → Option Xml
  sha1 : List Char → List Char
  sha1_len : ∀ s, (sha1 s).length = 20
  check_auth : List Char → Option (List Char) → Int

/-! ## Verification (art_proc.c lines 93-249) -/

def signedInfoTag : List Char := "<SignedInfo>".data

/-- The namespace-expanded `SignedInfo` open tag fed to the first digest
pass in place of the abbreviated tag in the buffer. -/
def signedInfoNs : List Char :=
  "<SignedInfo xmlns=\"http://www.w3.org/2000/09/xmldsig#\">".data

/-- Pointer-value model of line 115: `strstr` returns `base + index` into
the buffer on success and NULL (`0`) on failure, and the code adds
`strlen("<SignedInfo>") = 12` *before* the NULL test on line 116. -/
def strstr_addr (base : Nat) (hay pat : List Char) : Nat :=
  match strstr_index hay pat with
  | some i => base + i
  | none => 0

def signed_info_ptr (base : Nat) (raw : List Char) : Nat :=
  strstr_addr base raw signedInfoTag + 12

/-- Model of `npnt_verify_permart` on a handle holding raw bytes `raw` and parsed
tree `t`.  `none` models undefined behaviour: a missing `<SignedInfo>`
marker (the NULL check on line 116 tests `strstr(...) + 12` and can never
fire, after which the scan reads from address 12), a missing `</Signature>`
marker (NULL plus `strlen` on line 225), or a missing `DigestValue` element
(`rcvd_digest_value[i]` dereferences NULL on line 235).  A missing
`<SignatureValue` marker makes line 120 subtract a real address from NULL;
the resulting length is negative, so line 121 returns `NPNT_INV_ART` (the
pointer subtraction is formally undefined but deterministic on the targeted
platforms).  The `int16_t` truncation of the two lengths is not modeled
(artifacts are far below 32767 bytes). -/
def npnt_verify_permart (ext : Externals) (raw : List Char) (t : Xml) :
    Option Int :=
  match strstr_index raw signedInfoTag with
  | none => none
  | some i0 =>
    match strstr_index raw "<SignatureValue".data with
    | none => some NPNT_INV_ART
    | some i1 =>
      if i1 < i0 + 12 then some NPNT_INV_ART
      else
        match getOpaqueText (findElem "SignatureValue" t) with
        | none => some NPNT_INV_SIGN
        | some sig =>
          if ext.check_auth
              (ext.sha1 (signedInfoNs ++
                canonicalize ((raw.drop (i0 + 12)).take (i1 - (i0 + 12))) []))
              (ext.base64_decode sig.data) ≤ 0 then some NPNT_INV_AUTH
          else
            match strstr_index raw "<UAPermission>".data with
            | none => some NPNT_INV_ART
            | some j0 =>
              match strstr_index raw "<Signature".data with
              | none => some NPNT_INV_ART
              | some j1 =>
                if j1 < j0 then some NPNT_INV_ART
                else
                  match strstr_index raw "</Signature>".data with
                  | none => none
                  | some k0 =>
                    match getOpaqueText (findElem "DigestValue" t) with
                    | none => none
                    | some rcvd =>
                      if digest_value_check
                          (base64_encode (ext.sha1
                            (canonicalize ((raw.drop j0).take (j1 - j0)) [] ++
                              raw.drop (k0 + 12))))
                          rcvd.data
                      then some 0
                      else some NPNT_INV_DGST

/-! ## The handle and npnt_set_permart (art_proc.c lines 31-90) -/

/-- The parts of `npnt_s` that `art_proc.c` reads or writes.  The fence
vertex arrays are omitted: `npnt_alloc_and_get_fence_points` assigns its
allocations to by-value parameter copies, so the handle's arrays are never
written through that path. -/
structure Handle where
  raw_permart : Option (List Char)
  raw_permart_len : Nat
  parsed_permart : Option Xml
  fence_nverts : Int
  fence_maxAltitude : Option String
  params : FlightParams

def handle0 : Handle := ⟨none, 0, none, 0, none, fp0⟩

/-- Model of `npnt_set_permart`.  The NULL-handle guard (`NPNT_UNALLOC_HANDLE`) is
unrepresentable here.  Note the faithful quirks: `raw_permart_len` is only
assigned on the base64 path (the memcpy path never sets it); a verify
failure returns the verify code with the handle's fence untouched; a
`npnt_get_max_altitude` failure returns `NPNT_INV_BAD_ALT` *without*
resetting `fence_nverts`; only a `npnt_populate_flight_params` failure
resets `fence_nverts` to 0.  `none` propagates undefined behaviour from the
callees. -/
def npnt_set_permart (ext : Externals) (h : Handle) (permart : List Char)
    (base64_encoded : Bool) : Option (Int × Handle) :=
  if h.raw_permart.isSome then some (NPNT_ALREADY_SET, h)
  else
    match (if base64_encoded then ext.base64_decode permart else some permart) with
    | none => some (NPNT_PARSE_FAILED, h)
    | some raw =>
      let h1 : Handle :=
        if base64_encoded then
          { h with raw_permart := some raw, raw_permart_len := raw.length }
        else
          { h with raw_permart := some raw }
      match ext.parse raw with
      | none => some (NPNT_PARSE_FAILED, h1)
      | some t =>
        let h2 : Handle := { h1 with parsed_permart := some t }
        match npnt_verify_permart ext raw t with
        | none => none
        | some vret =>
          if vret < 0 then some (vret, h2)
          else
            if npnt_alloc_and_get_fence_points t ≤ 0 then
              some (NPNT_BAD_FENCE, { h2 with fence_nverts := 0 })
            else
              let h3 : Handle :=
                { h2 with fence_nverts := npnt_alloc_and_get_fence_points t }
              match npnt_get_max_altitude t with
              | none => some (NPNT_INV_BAD_ALT, h3)
              | some alt =>
                let h4 : Handle := { h3 with fence_maxAltitude := some alt }
                match npnt_populate_flight_params t h4.params with
                | none => none
                | some pr =>
                  let h5 : Handle := { h4 with params := pr.2 }
                  if pr.1 < 0 then
                    some (NPNT_INV_FPARAMS, { h5 with fence_nverts := 0 })
                  else some (0, h5)

/-! ## Concrete test artifacts

`mkExt` instantiates the external collaborators for concrete runs: the
parser returns the given tree, SHA-1 returns a fixed 20-byte value `d20`
(any value works — the artifacts below embed the base64 encoding of `d20`
as their `DigestValue`), and the signature check accepts.  The raw byte
strings and the trees mirror each other. -/

def d20 : List Char := List.replicate 20 'A'

def mkExt (t : Xml) : Externals :=
  { base64_decode := fun s => some s
    parse := fun _ => some t
    sha1 := fun _ => d20
    sha1_len := fun _ => List.length_replicate 20 'A'
    check_auth := fun _ _ => 1 }

def raw2 : String := "<UAPermission><Signature><SignedInfo><Reference><DigestValue>QUFBQUFBQUFBQUFBQUFBQUFBQUE=</DigestValue></Reference></SignedInfo><SignatureValue>U0ln</SignatureValue></Signature><Coordinates><Coordinate latitude=\"1.0\" longitude=\"2.0\"></Coordinate></Coordinates></UAPermission>"

def tree2 : Xml :=
  .elem "UAPermission" []
    [.elem "Signature" []
      [.elem "SignedInfo" []
        [.elem "Reference" []
          [.elem "DigestValue" [] [.txt "QUFBQUFBQUFBQUFBQUFBQUFBQUE="]]],
       .elem "SignatureValue" [] [.txt "U0ln"]],
     .elem "Coordinates" []
      [.elem "Coordinate" [("latitude", "1.0"), ("longitude", "2.0")] []]]

def rawF : String := "<UAPermission><Signature><SignedInfo><Reference><DigestValue>QUFBQUFBQUFBQUFBQUFBQUFBQUE=</DigestValue></Reference></SignedInfo><SignatureValue>U0ln</SignatureValue></Signature><UADetails uinNo=\"U1\"></UADetails><FlightParameters maxAltitude=\"100\"></FlightParameters><Coordinates><Coordinate latitude=\"1.0\" longitude=\"2.0\"></Coordinate></Coordinates></UAPermission>"

def treeF : Xml :=
  .elem "UAPermission" []
    [.elem "Signature" []
      [.elem "SignedInfo" []
        [.elem "Reference" []
          [.elem "DigestValue" [] [.txt "QUFBQUFBQUFBQUFBQUFBQUFBQUE="]]],
       .elem "SignatureValue" [] [.txt "U0ln"]],
     .elem "UADetails" [("uinNo", "U1")] [],
     .elem "FlightParameters" [("maxAltitude", "100")] [],
     .elem "Coordinates" []
      [.elem "Coordinate" [("latitude", "1.0"), ("longitude", "2.0")] []]]

def c2H : Handle :=
  { raw_permart := some rawF.data
    raw_permart_len := 0
    parsed_permart := some treeF
    fence_nverts := 0
    fence_maxAltitude := some "100"
    params := ⟨some "U1", none, none, tmZero, tmZero⟩ }

def raw9 : String := "<UAPermission><Signature><SignedInfo><Reference><DigestValue>QUFBQUFBQUFBQUFBQUFBQUFBQUE=</DigestValue></Reference></SignedInfo><SignatureValue>U0ln</SignatureValue></Signature><Coordinates></Coordinates></UAPermission>"

def tree9 : Xml :=
  .elem "UAPermission" []
    [.elem "Signature" []
      [.elem "SignedInfo" []
        [.elem "Reference" []
          [.elem "DigestValue" [] [.txt "QUFBQUFBQUFBQUFBQUFBQUFBQUE="]]],
       .elem "SignatureValue" [] [.txt "U0ln"]],
     .elem "Coordinates" [] []]

def raw3 : String := "<UAPermission><Signature><SignedInfo><Reference><DigestValue>QUFBQUFBQUFBQUFBQUFBQUFBQUE=XYZ</DigestValue></Reference></SignedInfo><SignatureValue>U0ln</SignatureValue></Signature></UAPermission>"

def tree3 : Xml :=
  .elem "UAPermission" []
    [.elem "Signature" []
      [.elem "SignedInfo" []
        [.elem "Reference" []
          [.elem "DigestValue" [] [.txt "QUFBQUFBQUFBQUFBQUFBQUFBQUE=XYZ"]]],
       .elem "SignatureValue" [] [.txt "U0ln"]]]

def tree4 : Xml := .elem "x" [] []

def treeG : Xml :=
  .elem "UAPermission" []
    [.elem "UADetails" [("uinNo", "U1")] [],
     .elem "FlightParameters"
       [("adcNumber", "A1"), ("ficNumber", "F1"),
        ("flightStartTime", "2020-01-01T10:00:00")] []]

def treeG2 : Xml :=
  .elem "UAPermission" []
    [.elem "UADetails" [("uinNo", "U1")] [],
     .elem "FlightParameters"
       [("adcNumber", "A1"), ("ficNumber", "F1"),
        ("flightEndTime", "2020"),
        ("flightStartTime", "2020-01-01T10:00:00")] []]

def coordOk : Xml := .elem "Coordinate" [("latitude", "1.0"), ("longitude", "2.0")] []

def fenceTree1 : Xml := .elem "UAPermission" [] [.elem "Coordinates" [] [coordOk]]

def fenceTree130 : Xml :=
  .elem "UAPermission" [] [.elem "Coordinates" [] (List.replicate 130 coordOk)]

def ts0 : List Char := "2020-01-01T10:00:00".data

/-- A handle already holding ingested data, for the one-shot-guard run. -/
def hFull : Handle :=
  { raw_permart := some "x".data
    raw_permart_len := 1
    parsed_permart := some tree2
    fence_nverts := 3
    fence_maxAltitude := some "100"
    params := ⟨some "U1", some "A1", some "F1", tmZero, tmZero⟩ }

/-! ## Helper lemmas -/

theorem scanName_snd_pos : ∀ (l acc : List Char), 1 ≤ (scanName l acc).2 := by
  intro l
  induction l with
  | nil => intro acc; simp [scanName]
  | cons c rest ih =>
    intro acc
    simp only [scanName]
    split
    · simp
    · split
      · simp
      · exact ih (acc ++ [c])

theorem hasSlashGt_tail {c : Char} {rest : List Char}
    (h : hasSlashGt (c :: rest) = false) : hasSlashGt rest = false := by
  cases rest with
  | nil => rfl
  | cons b r =>
    simp only [hasSlashGt, Bool.or_eq_false_iff] at h
    exact h.2

theorem hasSlashGt_drop : ∀ (n : Nat) (s : List Char), hasSlashGt s = false →
    hasSlashGt (s.drop n) = false := by
  intro n
  induction n with
  | zero => intro s h; simpa using h
  | succ m ih =>
    intro s h
    cases s with
    | nil => rfl
    | cons c rest => simpa using ih rest (hasSlashGt_tail h)

theorem canonFuel_id : ∀ (fuel : Nat) (s name : List Char),
    s.length ≤ fuel → hasSlashGt s = false → canonFuel fuel s name = s := by
  intro fuel
  induction fuel with
  | zero =>
    intro s name hle _
    have : s = [] := List.eq_nil_of_length_eq_zero (Nat.le_zero.mp hle)
    subst this
    rfl
  | succ f ih =>
    intro s name hle hsg
    cases s with
    | nil => rfl
    | cons c rest =>
      simp only [canonFuel]
      split
      · have hk : 1 ≤ (scanName rest []).2 := scanName_snd_pos rest []
        have hdl : ((c :: rest).drop (scanName rest []).2).length ≤ f := by
          simp only [List.length_drop, List.length_cons]
          simp only [List.length_cons] at hle
          omega
        rw [ih _ _ hdl (hasSlashGt_drop _ _ hsg)]
        exact List.take_append_drop _ _
      · split
        · rename_i hcond
          exfalso
          obtain ⟨-, hslash, hhead⟩ := hcond
          cases rest with
          | nil => simp at hhead
          | cons b r =>
            simp only [List.head?_cons, Option.some.injEq] at hhead
            subst hslash hhead
            simp [hasSlashGt] at hsg
        · simp only [List.length_cons] at hle
          rw [ih rest name (by omega) (hasSlashGt_tail hsg)]

theorem verify_code_mem (ext : Externals) (raw : List Char) (t : Xml) (r : Int)
    (hr : npnt_verify_permart ext raw t = some r) :
    r = 0 ∨ r = NPNT_INV_ART ∨ r = NPNT_INV_SIGN ∨ r = NPNT_INV_AUTH ∨
      r = NPNT_INV_DGST := by
  unfold npnt_verify_permart at hr
  repeat' split at hr
  all_goals simp_all

/-! ## Claims -/

/-- Claim C1 (counterexample): for the self-closing element with no
attributes, the claim says the canonical bytes are `<Foo></Foo>`; the code
feeds `<Foo/>` unchanged, because the `/` is captured into the name buffer
(capture only stops at a space or `>`) and the terminating `>` then clears
the captured name, so the rewrite condition never sees a nonempty name. -/
theorem c1_counterexample :
    canonicalize "<Foo/>".data [] ≠ "<Foo></Foo>".data := by decide

/-- Claim C1 (amended): the canonicalizer rewrites a self-closing element
whose name capture ended at a space (i.e. one carrying attributes):
`<Foo a="1"/>` contributes `<Foo a="1"></Foo>`; but a self-closing element
with no attributes is passed through unchanged: `<Foo/>` contributes
`<Foo/>`. -/
theorem c1_theorem :
    canonicalize "<Foo a=\"1\"/>".data [] = "<Foo a=\"1\"></Foo>".data ∧
    canonicalize "<Foo/>".data [] = "<Foo/>".data := by
  exact ⟨by decide, by decide⟩

/-- Claim C5 (counterexample): on `2020-01-01T10:00:00` the conversion
produces hour 5 and minute −30 (raw field subtraction of the −5:30 offset
with no borrow), not hour 4 / minute 30 as the claim states. -/
theorem c5_counterexample :
    (npnt_ist_date_time_to_unix_time ts0).map (fun tm => (tm.tm_hour, tm.tm_min))
      = some (5, -30) ∧
    ((5 : Int), (-30 : Int)) ≠ ((4 : Int), (30 : Int)) := by
  exact ⟨rfl, by decide⟩

/-- Claim C5 (amended): `2020-01-01T10:00:00` converts without error to the
raw fields `tm_year = 120` (calendar year 2020 minus 1900), `tm_mon = 1`
(no 0-based adjustment), `tm_mday = 1`, `tm_hour = 10 − 5 = 5`,
`tm_min = 0 − 30 = −30`, `tm_sec = 0`: the fixed IST offset is subtracted
field-by-field with no wrap-normalization, so the minute underflows instead
of borrowing from the hour. -/
theorem c5_theorem :
    npnt_ist_date_time_to_unix_time ts0 = some ⟨120, 1, 1, 5, -30, 0⟩ := rfl

/-- Claim C6: a second `npnt_set_permart` on a handle that already holds raw
bytes returns `NPNT_ALREADY_SET` immediately, with the handle — raw bytes,
parsed tree, fence and flight parameters — exactly as the first call left
it. -/
theorem c6_theorem (ext : Externals) (h : Handle) (p : List Char) (b : Bool)
    (hs : h.raw_permart.isSome = true) :
    npnt_set_permart ext h p b = some (NPNT_ALREADY_SET, h) := by
  unfold npnt_set_permart
  rw [if_pos hs]


theorem c6_witness :
    npnt_set_permart (mkExt tree2) hFull "y".data false
      = some (NPNT_ALREADY_SET, hFull) :=
  c6_theorem (mkExt tree2) hFull "y".data false rfl

/-- Claim C7: on a byte range containing no `/` immediately followed by `>`,
one canonicalization pass feeds the input bytes to the digest unchanged,
whatever captured-name state it starts in. -/
theorem c7_theorem (s name : List Char) (h : hasSlashGt s = false) :
    canonicalize s name = s := by
  unfold canonicalize
  exact canonFuel_id s.length s name (Nat.le_refl _) h

theorem c7_witness :
    canonicalize "<a x=\"1\"><b>t</b></a>".data [] = "<a x=\"1\"><b>t</b></a>".data :=
  c7_theorem "<a x=\"1\"><b>t</b></a>".data [] (by decide)

/-- Claim C8 (code evaluated at the failing input): an artifact whose
`FlightParameters` element carries `adcNumber`, `ficNumber` and
`flightStartTime` but no `flightEndTime` attribute drives
`npnt_populate_flight_params` into `npnt_ist_date_time_to_unix_time(NULL, …)`
— `strlen(NULL)`, undefined behaviour (`none`), not `NPNT_INV_FPARAMS`;
whereas a `flightEndTime` attribute that is present but not 19 characters
long does produce the clean `NPNT_INV_FPARAMS` return the claim
describes. -/
theorem c8_theorem :
    npnt_populate_flight_params treeG fp0 = none ∧
    (npnt_populate_flight_params treeG2 fp0).map (fun r => r.1)
      = some NPNT_INV_FPARAMS := by
  exact ⟨rfl, rfl⟩

/-- Claim C3 (counterexample): a concrete run in which the `DigestValue`
text (31 bytes) and the computed base64 encoding (28 bytes) have different
lengths — the received text carries three trailing junk bytes after a
matching prefix — yet `npnt_verify_permart` returns success (`some 0`)
rather than `NPNT_INV_DGST`: the comparison loop stops at index
`base64_digest_value_len - 2` and never compares lengths. -/
theorem c3_counterexample :
    npnt_verify_permart (mkExt tree3) raw3.data tree3 = some 0 ∧
    (getOpaqueText (findElem "DigestValue" tree3)).map String.length = some 31 ∧
    (base64_encode ((mkExt tree3).sha1 [])).length = 28 ∧ (31 : Nat) ≠ 28 := by
  exact ⟨by decide, by decide, by decide, by decide⟩

/-- Claim C3 (amended): the digest comparison accepts exactly when the
computed encoding and the `DigestValue` text agree on indices `0` through
`len − 2` (`len` the computed encoding's length); a mismatch among those
indices yields `NPNT_INV_DGST`, but the final index and any further bytes
of the received text — in particular all of a longer received string's
tail — are never compared. -/
theorem c3_theorem (computed rcvd : List Char) :
    digest_value_check computed rcvd = true ↔
      ∀ i, i < computed.length - 1 →
        computed.getD i nulChar = rcvd.getD i nulChar := by
  simp [digest_value_check, List.all_eq_true, List.mem_range]

/-- Claim C4: missing `<SignedInfo>` is not caught.  Line 115 adds
`strlen("<SignedInfo>") = 12` to the `strstr` result *before* the NULL
check, so the checked pointer is `base + index + 12` on success and
`0 + 12` on failure — never NULL — and verification proceeds to scan from
an invalid pointer (undefined behaviour, `none`) instead of returning
`NPNT_INV_ART` as the claim states. -/
theorem c4_theorem :
    (∀ base raw, (signed_info_ptr base raw == 0) = false) ∧
    strstr_index "<x></x>".data signedInfoTag = none ∧
    npnt_verify_permart (mkExt tree4) "<x></x>".data tree4 = none := by
  refine ⟨?_, by decide, by decide⟩
  intro base raw
  simp only [signed_info_ptr, strstr_addr]
  split <;> simp

/-- Claim C9: when the first `Coordinates` element is absent or has no
`Coordinate` element children, the fence extraction's vertex count is 0, the
returned `int8_t` is non-positive, and a `npnt_set_permart` run that reaches
fence extraction (verification succeeded on the parsed tree) returns
`NPNT_BAD_FENCE` with the handle's vertex count zero — an empty fence is
never a successful set. -/
theorem c9_theorem (t : Xml) (ext : Externals) (h : Handle) (p : List Char)
    (hc : coordCount t = 0) (hr : h.raw_permart = none)
    (hp : ext.parse p = some t)
    (hv : npnt_verify_permart ext p t = some 0) :
    npnt_alloc_and_get_fence_points t ≤ 0 ∧
    (npnt_set_permart ext h p false).map (fun r => (r.1, r.2.fence_nverts)) =
      some (NPNT_BAD_FENCE, 0) := by
  have hcs : coordChildren t = [] :=
    List.eq_nil_of_length_eq_zero hc
  have hfence : npnt_alloc_and_get_fence_points t = 0 := by
    simp [npnt_alloc_and_get_fence_points, coordsWellAttributed, hcs,
      coordCount, int8_of_uint16]
  refine ⟨by omega, ?_⟩
  simp [npnt_set_permart, hr, hp, hv, hfence]

theorem c9_witness :
    npnt_alloc_and_get_fence_points tree9 ≤ 0 ∧
    (npnt_set_permart (mkExt tree9) handle0 raw9.data false).map
      (fun r => (r.1, r.2.fence_nverts)) = some (NPNT_BAD_FENCE, 0) :=
  c9_theorem tree9 (mkExt tree9) handle0 raw9.data rfl rfl rfl (by decide)

/-- Claim C2 (counterexample): a concrete artifact whose fence extraction
succeeds with one vertex but whose `FlightParameters` element is absent
makes `npnt_set_permart` return `NPNT_INV_BAD_ALT` with the handle's fence
vertex count still 1, not 0 — the altitude-failure path (art_proc.c lines
78-80) returns without resetting `fence.nverts`. -/
theorem c2_counterexample :
    (npnt_set_permart (mkExt tree2) handle0 raw2.data false).map
      (fun r => (r.1, r.2.fence_nverts)) = some (NPNT_INV_BAD_ALT, 1) ∧
    (1 : Int) ≠ 0 := by
  exact ⟨by decide, by decide⟩

/-- Claim C2 (amended): of the two failure paths after fence extraction has
populated the fence, only the flight-parameter path resets the vertex count:
whenever `npnt_set_permart` returns `NPNT_INV_FPARAMS`, the returned
handle's `fence_nverts` is 0 (while an `NPNT_INV_BAD_ALT` return leaves the
extracted count in place, per the counterexample). -/
theorem c2_theorem (ext : Externals) (h : Handle) (p : List Char) (b : Bool)
    (code : Int) (h' : Handle)
    (hrun : npnt_set_permart ext h p b = some (code, h'))
    (hcode : code = NPNT_INV_FPARAMS) :
    h'.fence_nverts = 0 := by
  subst hcode
  simp only [npnt_set_permart] at hrun
  repeat' split at hrun
  any_goals exact Option.noConfusion hrun
  all_goals injection hrun with hpair
  all_goals injection hpair with hc hh
  any_goals (simp [NPNT_ALREADY_SET, NPNT_PARSE_FAILED, NPNT_BAD_FENCE,
    NPNT_INV_BAD_ALT, NPNT_INV_FPARAMS] at hc)
  any_goals (subst hh; rfl)
  all_goals (
    have hmem := verify_code_mem _ _ _ _ ‹_›
    rcases hmem with h0 | h0 | h0 | h0 | h0 <;>
      first
        | omega
        | (simp only [NPNT_INV_ART, NPNT_INV_SIGN, NPNT_INV_AUTH,
            NPNT_INV_DGST] at h0
           omega))

theorem c2_witness : c2H.fence_nverts = 0 :=
  c2_theorem (mkExt treeF) handle0 rawF.data false NPNT_INV_FPARAMS c2H rfl rfl

/-- Claim C10: with every `Coordinate` child carrying both `latitude` and
`longitude`, the `uint16_t` vertex count `N` travels through the `int8_t`
return of `npnt_alloc_and_get_fence_points`: for `1 ≤ N ≤ 127` the returned
value is exactly `N` and a fully successful `npnt_set_permart` run stores it
as the handle's `fence_nverts`; for `N ≥ 128` the returned value is
`N mod 2^8` reinterpreted as a signed byte, which is either non-positive
(so the set fails with `NPNT_BAD_FENCE`) or a positive value below 128 and
hence different from `N`. -/
theorem c10_theorem (t : Xml) (hw : coordsWellAttributed t = true) :
    (1 ≤ coordCount t → coordCount t ≤ 127 →
      npnt_alloc_and_get_fence_points t = (coordCount t : Int)) ∧
    (128 ≤ coordCount t →
      npnt_alloc_and_get_fence_points t = int8_of_uint16 (coordCount t) ∧
      (npnt_alloc_and_get_fence_points t ≤ 0 ∨
        npnt_alloc_and_get_fence_points t ≠ (coordCount t : Int))) ∧
    (∀ (ext : Externals) (h : Handle) (p : List Char) (h' : Handle),
      h.raw_permart = none → ext.parse p = some t →
      npnt_set_permart ext h p false = some (0, h') →
      h'.fence_nverts = npnt_alloc_and_get_fence_points t) := by
  have hfence : npnt_alloc_and_get_fence_points t = int8_of_uint16 (coordCount t) := by
    simp [npnt_alloc_and_get_fence_points, hw]
  refine ⟨?_, ?_, ?_⟩
  · intro h1 h127
    rw [hfence]
    unfold int8_of_uint16
    rw [if_pos (by omega)]
    congr 1
    omega
  · intro h128
    refine ⟨hfence, ?_⟩
    rw [hfence]
    unfold int8_of_uint16
    split
    · rename_i hlt
      by_cases hz : coordCount t % 65536 % 256 = 0
      · left; simp [hz]
      · right
        have : coordCount t % 65536 % 256 < coordCount t := by omega
        omega
    · left
      have : coordCount t % 65536 % 256 < 256 := by omega
      omega
  · intro ext h p h' hr hp hrun
    simp only [npnt_set_permart] at hrun
    repeat' split at hrun
    any_goals exact Option.noConfusion hrun
    all_goals injection hrun with hpair
    all_goals injection hpair with hc hh
    any_goals (simp [NPNT_ALREADY_SET, NPNT_PARSE_FAILED, NPNT_BAD_FENCE,
      NPNT_INV_BAD_ALT, NPNT_INV_FPARAMS] at hc)
    -- remaining leaves: the verify-failure return (vret < 0 yet vret = 0)
    -- and the success return (h' is h5, whose fence_nverts is the fence value)
    all_goals (
      first
      | omega
      | (subst hh; simp_all))

theorem c10_witness :
    npnt_alloc_and_get_fence_points fenceTree1 = 1 ∧
    npnt_alloc_and_get_fence_points fenceTree130 = -126 := by
  constructor
  · exact ((c10_theorem fenceTree1 (by decide)).1 (by decide) (by decide)).trans
      (by decide)
  · exact (((c10_theorem fenceTree130 (by decide)).2.1 (by decide)).1).trans
      (by decide)
